import Mathlib

/-!
Shallow embedding of the safety-oriented FFmpeg binding layer
(`src/codec/*`, `src/format/context/input.rs`, `src/util/frame/audio.rs`),
with theorems settling the frozen claims about error handling, the
packet-iteration protocol, codec-context ownership, encoder medium
promotion, and typed audio-plane access.

Native calls (avcodec_open2, av_read_frame, av_frame_copy, ...) are black
boxes: each embedded operation takes the native return value (and, where
relevant, the native side effect) as an explicit oracle argument, and the
embedding records exactly how the Rust wrapper reacts to it.
-/

namespace FF

/-- Modelled from the spec: the error taxonomy of `util/error.rs` (the file
itself is outside the included sources). The spec lists EndOfFile,
DecoderNotFound, EncoderNotFound, InvalidData, TryAgain and a generic
code-carrying case. -/
inductive Error where
  | Eof
  | DecoderNotFound
  | EncoderNotFound
  | InvalidData
  | TryAgain
  | other (code : Int)
deriving DecidableEq, Repr

/-- Modelled from the spec: `Error::from(code)`, the single translation
function for native return codes (`util/error.rs`, outside the included
sources). The claims settled here never depend on which taxonomy member a
particular numeric code maps to — the named errors `DecoderNotFound` and
`InvalidData` are produced directly by the wrapper code, not by this
translation — so the translation is embedded as the code-carrying case. -/
def errFrom (code : Int) : Error := Error.other code

/-- A packet as produced by one successful native read: its stream index
plus opaque payload (`Packet::stream()` is the tag the iterator uses). -/
structure PacketData where
  stream_index : Nat
  payload : List Nat
deriving DecidableEq, Repr

/-- One native read result, as surfaced by `Packet::read` to
`PacketIter::next`: either a packet or a translated error. -/
def ReadResult : Type := Except Error PacketData

/-- `PacketIter::next` (src/format/context/input.rs lines 178-195): loops
over `packet.read(self.context)`; on `Ok` it returns the (stream, packet)
pair, on `Err(Error::Eof)` it returns `None`, and on any other error it
falls through and reads again. Embedded over the finite list of read
results the native layer will deliver; an empty list means the loop is
still spinning, hence the outer `Option`: `none` = no verdict yet,
`some none` = iteration terminated, `some (some item)` = item yielded. -/
def pktIterNext : List ReadResult → Option (Option (Nat × PacketData))
  | [] => none
  | Except.ok p :: _ => some (some (p.stream_index, p))
  | Except.error Error.Eof :: _ => some none
  | Except.error _ :: rest => pktIterNext rest

/-- A read result is a soft error when the retry loop swallows it:
any error other than end-of-file. -/
def softError : ReadResult → Bool
  | Except.error Error.Eof => false
  | Except.error _ => true
  | Except.ok _ => false

theorem pktIterNext_skips_soft (r : ReadResult) (rs : List ReadResult)
    (h : softError r = true) : pktIterNext (r :: rs) = pktIterNext rs := by
  match r with
  | Except.ok p => simp [softError] at h
  | Except.error e =>
    cases e <;> simp [softError] at h <;> rfl

theorem pktIterNext_char (rs : List ReadResult) :
    pktIterNext rs =
      match rs.dropWhile softError with
      | [] => none
      | Except.ok p :: _ => some (some (p.stream_index, p))
      | Except.error _ :: _ => some none := by
  induction rs with
  | nil => rfl
  | cons r rest ih =>
    match r with
    | Except.ok p => rfl
    | Except.error e =>
      cases e with
      | Eof => rfl
      | DecoderNotFound => simpa [pktIterNext, List.dropWhile, softError] using ih
      | EncoderNotFound => simpa [pktIterNext, List.dropWhile, softError] using ih
      | InvalidData => simpa [pktIterNext, List.dropWhile, softError] using ih
      | TryAgain => simpa [pktIterNext, List.dropWhile, softError] using ih
      | other code => simpa [pktIterNext, List.dropWhile, softError] using ih

theorem dropWhile_softError_eof (rs : List ReadResult) (e : Error)
    (h : (rs.dropWhile softError).head? = some (Except.error e)) :
    e = Error.Eof := by
  have hp := List.head?_dropWhile_not (p := softError) (l := rs)
  rw [h] at hp
  simp at hp
  cases e <;> first
    | rfl
    | simp [softError] at hp

/-- Claim C1: advancing the packet iterator terminates (yields no item)
only when the native read reports end-of-file; on a successful read it
yields the (stream, packet) pair; and on any other error code it silently
retries the read, so no error other than end-of-file is ever surfaced to
the consumer. Formally: (a) a soft (non-EOF) error is skipped without any
visible effect; (b) a successful read yields the packet tagged with its
stream index; (c) an EOF read terminates the sequence; (d) whenever the
iterator terminates, the read it stopped at was end-of-file — every error
it saw before was retried, never surfaced. -/
theorem C1_packet_iter_retry_until_eof
    (r : ReadResult) (rs : List ReadResult) (p : PacketData)
    (hsoft : softError r = true) :
    pktIterNext (r :: rs) = pktIterNext rs
    ∧ pktIterNext (Except.ok p :: rs) = some (some (p.stream_index, p))
    ∧ pktIterNext (Except.error Error.Eof :: rs) = some none
    ∧ (pktIterNext rs = some none →
        (rs.dropWhile softError).head? = some (Except.error Error.Eof)) := by
  refine ⟨pktIterNext_skips_soft r rs hsoft, rfl, rfl, ?_⟩
  intro hterm
  rw [pktIterNext_char] at hterm
  cases hdw : rs.dropWhile softError with
  | nil => rw [hdw] at hterm; simp at hterm
  | cons x xs =>
    rw [hdw] at hterm
    match x with
    | Except.ok q => simp at hterm
    | Except.error e =>
      have hh : (rs.dropWhile softError).head? = some (Except.error e) := by
        rw [hdw]; rfl
      have he := dropWhile_softError_eof rs e hh
      subst he
      rfl

theorem C1_packet_iter_retry_until_eof_witness :
    softError (Except.error Error.TryAgain) = true
    ∧ (pktIterNext
        (Except.error Error.TryAgain
          :: [Except.ok ⟨3, [7]⟩, Except.error Error.Eof])
        = pktIterNext [Except.ok ⟨3, [7]⟩, Except.error Error.Eof]) := by
  refine ⟨by decide, ?_⟩
  exact (C1_packet_iter_retry_until_eof (Except.error Error.TryAgain)
    [Except.ok ⟨3, [7]⟩, Except.error Error.Eof] ⟨3, [7]⟩ (by decide)).1

/-- Modelled from the spec: `media::Type` (`util/media.rs`, outside the
included sources) — the media kind a codec context operates on:
Audio/Video/Subtitle/Data/Unknown. -/
inductive MediaType where
  | Unknown
  | Video
  | Audio
  | Subtitle
  | Data
deriving DecidableEq, Repr

/-- Modelled from the spec: a native codec descriptor
(`codec/codec.rs`, outside the included sources) with its declared
direction capabilities `is_decoder()` / `is_encoder()`. -/
structure CodecDesc where
  isDecoder : Bool
  isEncoder : Bool
deriving DecidableEq, Repr

/-- Modelled from the spec: the `traits::Decoder` view of a codec
descriptor (`codec/traits.rs`, outside the included sources) as used by
`Decoder::open_as` — yields the descriptor exactly when it is
decode-capable, so a direction mismatch is detected before any native
call. -/
def codecAsDecoder (c : CodecDesc) : Option CodecDesc :=
  if c.isDecoder then some c else none

/-- The codec-context state threaded through the open wrappers: whether
the native open succeeded on it, plus the rest of the native block
(opaque), so "not mutated" is expressible. -/
structure CodecCtxState where
  opened : Bool
  rest : Nat
deriving DecidableEq, Repr

/-- `Decoder::open_as` (src/codec/decoder/decoder.rs lines 22-33): if the
descriptor is decode-capable, performs the native `avcodec_open2` call
(outcome supplied by the oracle `nativeRet`) and wraps success as
`Opened`; otherwise fails with `DecoderNotFound` without calling into the
native library. The second component counts native open calls. -/
def decoderOpenAs (ctx : CodecCtxState) (codec : CodecDesc) (nativeRet : Int) :
    Except Error CodecCtxState × Nat :=
  match codecAsDecoder codec with
  | some _ =>
    (if nativeRet = 0 then Except.ok { ctx with opened := true }
     else Except.error (errFrom nativeRet), 1)
  | none => (Except.error Error.DecoderNotFound, 0)

/-- `encoder::Audio::open_as` (src/codec/encoder/audio.rs lines 24-36):
if the descriptor is encode-capable, performs the native open (oracle
`nativeRet`); otherwise fails with `InvalidData` without any native
call. The second component counts native open calls. -/
def audioEncoderOpenAs (ctx : CodecCtxState) (codec : CodecDesc) (nativeRet : Int) :
    Except Error CodecCtxState × Nat :=
  if codec.isEncoder then
    (if nativeRet = 0 then Except.ok { ctx with opened := true }
     else Except.error (errFrom nativeRet), 1)
  else (Except.error Error.InvalidData, 0)

/-- Claim C2: opening with a direction-mismatched descriptor fails with
the documented error — `DecoderNotFound` for `Decoder::open_as` on a
non-decode-capable descriptor, `InvalidData` for the audio encoder's
`open_as` on a non-encode-capable descriptor — and in both failure cases
zero native open calls are made, so the context state is untouched
whatever the native oracle would have answered. -/
theorem C2_open_as_direction_mismatch
    (ctx : CodecCtxState) (codec : CodecDesc) (ret : Int) :
    (codec.isDecoder = false →
      decoderOpenAs ctx codec ret = (Except.error Error.DecoderNotFound, 0))
    ∧ (codec.isEncoder = false →
      audioEncoderOpenAs ctx codec ret = (Except.error Error.InvalidData, 0)) := by
  constructor
  · intro hd
    simp [decoderOpenAs, codecAsDecoder, hd]
  · intro he
    simp [audioEncoderOpenAs, he]

theorem C2_open_as_direction_mismatch_witness :
    decoderOpenAs ⟨false, 0⟩ ⟨false, false⟩ 7 = (Except.error Error.DecoderNotFound, 0)
    ∧ audioEncoderOpenAs ⟨false, 0⟩ ⟨false, false⟩ 7
        = (Except.error Error.InvalidData, 0) :=
  ⟨(C2_open_as_direction_mismatch ⟨false, 0⟩ ⟨false, false⟩ 7).1 rfl,
   (C2_open_as_direction_mismatch ⟨false, 0⟩ ⟨false, false⟩ 7).2 rfl⟩

/-- The encoder-context state for the medium-specialization claims:
its native `codec_type` field plus the rest of the native block. -/
structure EncState where
  medium : MediaType
  rest : Nat
deriving DecidableEq, Repr

/-- `Encoder::video` (src/codec/encoder/encoder.rs lines 16-30): medium
`Unknown` promotes in place by writing `codec_type`, a matching medium is
returned as-is, anything else is `InvalidData`. -/
def encoderVideo (c : EncState) : Except Error EncState :=
  match c.medium with
  | MediaType.Unknown => Except.ok { c with medium := MediaType.Video }
  | MediaType.Video => Except.ok c
  | _ => Except.error Error.InvalidData

/-- `Encoder::audio` (src/codec/encoder/encoder.rs lines 33-47). -/
def encoderAudio (c : EncState) : Except Error EncState :=
  match c.medium with
  | MediaType.Unknown => Except.ok { c with medium := MediaType.Audio }
  | MediaType.Audio => Except.ok c
  | _ => Except.error Error.InvalidData

/-- `Encoder::subtitle` (src/codec/encoder/encoder.rs lines 49-63). -/
def encoderSubtitle (c : EncState) : Except Error EncState :=
  match c.medium with
  | MediaType.Unknown => Except.ok { c with medium := MediaType.Subtitle }
  | MediaType.Subtitle => Except.ok c
  | _ => Except.error Error.InvalidData

/-- Claim C3: each of `Encoder::video/audio/subtitle` succeeds and sets
the native medium field to the requested type when the current medium is
`Unknown`, succeeds leaving the state unchanged when the medium already
matches, and returns `InvalidData` for every other medium. -/
theorem C3_encoder_medium_promotion (c : EncState) :
    (c.medium = MediaType.Unknown →
      encoderVideo c = Except.ok { c with medium := MediaType.Video }
      ∧ encoderAudio c = Except.ok { c with medium := MediaType.Audio }
      ∧ encoderSubtitle c = Except.ok { c with medium := MediaType.Subtitle })
    ∧ (c.medium = MediaType.Video → encoderVideo c = Except.ok c)
    ∧ (c.medium = MediaType.Audio → encoderAudio c = Except.ok c)
    ∧ (c.medium = MediaType.Subtitle → encoderSubtitle c = Except.ok c)
    ∧ (c.medium ≠ MediaType.Unknown → c.medium ≠ MediaType.Video →
        encoderVideo c = Except.error Error.InvalidData)
    ∧ (c.medium ≠ MediaType.Unknown → c.medium ≠ MediaType.Audio →
        encoderAudio c = Except.error Error.InvalidData)
    ∧ (c.medium ≠ MediaType.Unknown → c.medium ≠ MediaType.Subtitle →
        encoderSubtitle c = Except.error Error.InvalidData) := by
  obtain ⟨m, r⟩ := c
  cases m <;>
    simp [encoderVideo, encoderAudio, encoderSubtitle]

theorem C3_encoder_medium_promotion_witness :
    encoderVideo ⟨MediaType.Unknown, 5⟩ = Except.ok ⟨MediaType.Video, 5⟩
    ∧ encoderAudio ⟨MediaType.Audio, 5⟩ = Except.ok ⟨MediaType.Audio, 5⟩
    ∧ encoderSubtitle ⟨MediaType.Video, 5⟩ = Except.error Error.InvalidData :=
  ⟨((C3_encoder_medium_promotion ⟨MediaType.Unknown, 5⟩).1 rfl).1,
   (C3_encoder_medium_promotion ⟨MediaType.Audio, 5⟩).2.2.1 rfl,
   (C3_encoder_medium_promotion ⟨MediaType.Video, 5⟩).2.2.2.2.2.2
     (by decide) (by decide)⟩

/-- An option dictionary: key-value string pairs (`Dictionary`). -/
abbrev Dict : Type := List (String × String)

/-- What one `open_as_with` call does with the option dictionary, beyond
its `Result`: what (if anything) flows back to the caller, and what the
wrapper frees itself. -/
structure OpenWithOutcome where
  result : Except Error CodecCtxState
  returnedOptions : Option Dict
  freedOptions : Dict
  nativeOpenCalls : Nat

/-- `Decoder::open_as_with` (src/codec/decoder/decoder.rs lines 35-55):
on a decode-capable descriptor it disowns the dictionary, makes the
native open call — which consumes entries, leaving `remaining` behind the
raw pointer (oracle) — then re-owns the leftover dictionary with
`Dictionary::own(opts)` whose value is immediately dropped, freeing those
entries; the function returns only the `Result`, never a dictionary. On a
direction mismatch it fails with `DecoderNotFound` before any native
call, and the still-owned input dictionary is dropped (freed) whole. -/
def decoderOpenAsWith (ctx : CodecCtxState) (codec : CodecDesc)
    (options : Dict) (nativeRet : Int) (remaining : Dict) : OpenWithOutcome :=
  match codecAsDecoder codec with
  | some _ =>
    { result := if nativeRet = 0 then Except.ok { ctx with opened := true }
                else Except.error (errFrom nativeRet)
      returnedOptions := none
      freedOptions := remaining
      nativeOpenCalls := 1 }
  | none =>
    { result := Except.error Error.DecoderNotFound
      returnedOptions := none
      freedOptions := options
      nativeOpenCalls := 0 }

/-- `encoder::Audio::open_as_with` (src/codec/encoder/audio.rs lines
38-55): same dictionary handling keyed on `is_encoder`, failing with
`InvalidData` on mismatch. -/
def audioEncoderOpenAsWith (ctx : CodecCtxState) (codec : CodecDesc)
    (options : Dict) (nativeRet : Int) (remaining : Dict) : OpenWithOutcome :=
  if codec.isEncoder then
    { result := if nativeRet = 0 then Except.ok { ctx with opened := true }
                else Except.error (errFrom nativeRet)
      returnedOptions := none
      freedOptions := remaining
      nativeOpenCalls := 1 }
  else
    { result := Except.error Error.InvalidData
      returnedOptions := none
      freedOptions := options
      nativeOpenCalls := 0 }

/-- Claim C4, counterexample: a successful `Decoder::open_as_with` call
that leaves one unconsumed entry does not return that entry to the
caller — the call's returned options are `none`, not the leftover
entries, so the claim "entries the native library did not consume are
returned back to the caller" fails at this input. -/
theorem C4_counterexample :
    (decoderOpenAsWith ⟨false, 0⟩ ⟨true, false⟩
        [("threads", "4"), ("refcounted_frames", "1")] 0
        [("refcounted_frames", "1")]).returnedOptions
      ≠ some [("refcounted_frames", "1")]
    ∧ (audioEncoderOpenAsWith ⟨false, 0⟩ ⟨false, true⟩
        [("threads", "4"), ("refcounted_frames", "1")] 0
        [("refcounted_frames", "1")]).returnedOptions
      ≠ some [("refcounted_frames", "1")] := by
  constructor <;> decide

/-- Claim C4 as amended: `open_as_with` never returns any options to the
caller; instead, when the direction check passes, the wrapper re-owns
exactly the entries the native library left unconsumed and frees them
itself (so they are reclaimed, not leaked, but also not surfaced). -/
theorem C4_open_as_with_frees_unconsumed (ctx : CodecCtxState)
    (codec : CodecDesc) (options : Dict) (ret : Int) (remaining : Dict) :
    (decoderOpenAsWith ctx codec options ret remaining).returnedOptions = none
    ∧ (audioEncoderOpenAsWith ctx codec options ret remaining).returnedOptions = none
    ∧ (codec.isDecoder = true →
        (decoderOpenAsWith ctx codec options ret remaining).freedOptions = remaining)
    ∧ (codec.isEncoder = true →
        (audioEncoderOpenAsWith ctx codec options ret remaining).freedOptions
          = remaining) := by
  refine ⟨?_, ?_, ?_, ?_⟩
  · cases hd : codec.isDecoder <;>
      simp [decoderOpenAsWith, codecAsDecoder, hd]
  · cases he : codec.isEncoder <;>
      simp [audioEncoderOpenAsWith, he]
  · intro hd
    simp [decoderOpenAsWith, codecAsDecoder, hd]
  · intro he
    simp [audioEncoderOpenAsWith, he]

theorem C4_open_as_with_frees_unconsumed_witness :
    (decoderOpenAsWith ⟨false, 0⟩ ⟨true, false⟩ [("k", "v")] 0 [("k", "v")]).freedOptions
      = [("k", "v")] :=
  (C4_open_as_with_frees_unconsumed ⟨false, 0⟩ ⟨true, false⟩
    [("k", "v")] 0 [("k", "v")]).2.2.1 rfl

/-- `Decoder::open` (src/codec/decoder/decoder.rs lines 13-20): the
native return value is matched as `0 => Ok`, anything else `=> Err`. -/
def openResult (ret : Int) : Except Error Unit :=
  if ret = 0 then Except.ok () else Except.error (errFrom ret)

/-- `Input::pause` (src/format/context/input.rs lines 111-118): the
native `av_read_pause` return is matched as `0 => Ok`, anything else
`=> Err`. -/
def pauseResult (ret : Int) : Except Error Unit :=
  if ret = 0 then Except.ok () else Except.error (errFrom ret)

/-- `Input::play` (src/format/context/input.rs lines 125-132): the
native `av_read_play` return is matched as `0 => Ok`, anything else
`=> Err`. -/
def playResult (ret : Int) : Except Error Unit :=
  if ret = 0 then Except.ok () else Except.error (errFrom ret)

/-- `Input::seek` (src/format/context/input.rs lines 134-148): the
native `avformat_seek_file` return is matched as `s if s >= 0 => Ok`,
negative `=> Err`. -/
def seekResult (ret : Int) : Except Error Unit :=
  if 0 ≤ ret then Except.ok () else Except.error (errFrom ret)

/-- `Encoder::send_frame` (src/codec/encoder/encoder.rs lines 65-72):
the native `avcodec_send_frame` return is matched as `e if e < 0 => Err`,
otherwise `Ok`. -/
def sendFrameResult (ret : Int) : Except Error Unit :=
  if ret < 0 then Except.error (errFrom ret) else Except.ok ()

/-- `Encoder::receive_packet` (src/codec/encoder/encoder.rs lines
84-91): the native `avcodec_receive_packet` return is matched as
`e if e < 0 => Err`, otherwise `Ok`. -/
def receivePacketResult (ret : Int) : Except Error Unit :=
  if ret < 0 then Except.error (errFrom ret) else Except.ok ()

/-- Whether a wrapper call surfaced an error. -/
def isErr : Except Error Unit → Bool
  | Except.error _ => true
  | Except.ok _ => false

/-- Claim C5, counterexample: `Input::pause` with a (hypothetical)
positive native return value 1 surfaces an error even though 1 is not
negative, so "the wrapper returns an error if and only if the native
return value is negative" fails for the pause wrapper (and likewise
open/play, which share the `0 => Ok, _ => Err` shape). -/
theorem C5_counterexample :
    isErr (pauseResult 1) = true ∧ ¬ ((1 : Int) < 0) := by
  constructor
  · rfl
  · decide

/-- Claim C5 as amended: every wrapper surfaces an error on every
negative native return; the seek/send/receive wrappers treat every
non-negative return as success (error iff negative); but the
open/pause/play wrappers accept exactly 0 as success and surface any
nonzero return — positive included — as an error. -/
theorem C5_error_mapping (ret : Int) :
    (ret < 0 →
      isErr (openResult ret) = true
      ∧ isErr (pauseResult ret) = true
      ∧ isErr (playResult ret) = true
      ∧ isErr (seekResult ret) = true
      ∧ isErr (sendFrameResult ret) = true
      ∧ isErr (receivePacketResult ret) = true)
    ∧ (0 ≤ ret →
      isErr (seekResult ret) = false
      ∧ isErr (sendFrameResult ret) = false
      ∧ isErr (receivePacketResult ret) = false)
    ∧ (isErr (openResult ret) = false ↔ ret = 0)
    ∧ (isErr (pauseResult ret) = false ↔ ret = 0)
    ∧ (isErr (playResult ret) = false ↔ ret = 0) := by
  refine ⟨?_, ?_, ?_, ?_, ?_⟩
  · intro hneg
    have hne : ret ≠ 0 := by omega
    have hnn : ¬ (0 ≤ ret) := by omega
    simp [openResult, pauseResult, playResult, seekResult,
      sendFrameResult, receivePacketResult, isErr, hne, hnn, hneg]
  · intro hnn
    have hnlt : ¬ (ret < 0) := by omega
    simp [seekResult, sendFrameResult, receivePacketResult, isErr, hnn, hnlt]
  all_goals
    by_cases hz : ret = 0 <;>
      simp [openResult, pauseResult, playResult, isErr, hz]

theorem C5_error_mapping_witness :
    isErr (seekResult 5) = false ∧ isErr (openResult (-1)) = true :=
  ⟨((C5_error_mapping 5).2.1 (by decide)).1,
   ((C5_error_mapping (-1)).1 (by decide)).1⟩

/-- `format::sample::Type` — packed (interleaved) vs planar storage. -/
inductive SampleKind where
  | Packed
  | Planar
deriving DecidableEq, Repr

/-- Modelled from the spec: `format::Sample` (`util/format/sample.rs`,
outside the included sources) — the declared sample format of an audio
frame: `None` or an element width tagged packed/planar; exactly the
constructors the `Sample` trait impls in src/util/frame/audio.rs match
on, plus `I64` which exists in the native enumeration but has no typed
accessor impl. -/
inductive Sample where
  | None
  | U8 (t : SampleKind)
  | I16 (t : SampleKind)
  | I32 (t : SampleKind)
  | I64 (t : SampleKind)
  | F32 (t : SampleKind)
  | F64 (t : SampleKind)
deriving DecidableEq, Repr

/-- Modelled from the spec: `Sample::is_planar` — planar means one
buffer per channel; `None` is not planar (the native
`av_sample_fmt_is_planar` reports 0 for it). -/
def sampleIsPlanar : Sample → Bool
  | Sample.U8 SampleKind.Planar => true
  | Sample.I16 SampleKind.Planar => true
  | Sample.I32 SampleKind.Planar => true
  | Sample.I64 SampleKind.Planar => true
  | Sample.F32 SampleKind.Planar => true
  | Sample.F64 SampleKind.Planar => true
  | _ => false

/-- Modelled from the spec: `Sample::is_packed` — the complement of
planar. -/
def sampleIsPacked (s : Sample) : Bool := ! sampleIsPlanar s

/-- The scalar bases for which src/util/frame/audio.rs provides `Sample`
trait impls (no `i64` impl exists there). -/
inductive ElemBase where
  | u8
  | i16
  | i32
  | f32
  | f64
deriving DecidableEq, Repr

/-- A requested element type `T` for `plane::<T>`: one of the scalar
impls, or one of the tuple impls of arity 2..7 (`(f32, f32)`, ...). -/
inductive Elem where
  | scalar (base : ElemBase)
  | tuple (base : ElemBase) (arity : Nat)
deriving DecidableEq, Repr

/-- The format constructor a scalar impl matches: `matches!(format,
U8(..))` and friends. -/
def sampleBase : Sample → Option ElemBase
  | Sample.None => none
  | Sample.U8 _ => some ElemBase.u8
  | Sample.I16 _ => some ElemBase.i16
  | Sample.I32 _ => some ElemBase.i32
  | Sample.I64 _ => none
  | Sample.F32 _ => some ElemBase.f32
  | Sample.F64 _ => some ElemBase.f64

/-- The packed format with the given base, as required by every tuple
impl (`format == format::Sample::F32(format::sample::Type::Packed)`). -/
def packedOf : ElemBase → Sample
  | ElemBase.u8 => Sample.U8 SampleKind.Packed
  | ElemBase.i16 => Sample.I16 SampleKind.Packed
  | ElemBase.i32 => Sample.I32 SampleKind.Packed
  | ElemBase.f32 => Sample.F32 SampleKind.Packed
  | ElemBase.f64 => Sample.F64 SampleKind.Packed

/-- `<T as Sample>::is_valid(format, channels)` (src/util/frame/audio.rs
lines 268-515): a scalar impl accepts any channel count and any variant
(packed or planar) of its own base; a tuple impl of arity n (the impls
exist for n = 2..7) requires exactly n channels and the packed variant
of its base. -/
def elemIsValid : Elem → Sample → Nat → Bool
  | Elem.scalar b, f, _ => sampleBase f = some b
  | Elem.tuple b n, f, channels =>
    2 ≤ n && n ≤ 7 && channels = n && f = packedOf b

/-- An audio frame (`frame::Audio`): the native fields the included
accessors read — declared format, channel count, per-channel sample
count, channel-layout bits, first linesize, the plane buffers (payload
at sample granularity), and the metadata dictionary. -/
structure AudioFrame where
  format : Sample
  channels : Nat
  samples : Nat
  channelLayout : Nat
  linesize0 : Int
  data : List (List Nat)
  metadata : List (String × String)
deriving DecidableEq, Repr

/-- `Audio::planes` (src/util/frame/audio.rs lines 142-154): 0 when
`linesize[0] == 0`; otherwise 1 for a packed format and one per channel
for a planar one. -/
def planesCount (f : AudioFrame) : Nat :=
  if f.linesize0 = 0 then 0
  else if sampleIsPacked f.format then 1
  else f.channels

/-- `slice::from_raw_parts(ptr, n)`: a slice of length exactly `n` over
whatever the pointer holds — the buffer's first `n` entries, junk
(modelled as 0) beyond its end. -/
def sliceFromRaw (buf : List Nat) (n : Nat) : List Nat :=
  buf.take n ++ List.replicate (n - buf.length) 0

theorem sliceFromRaw_length (buf : List Nat) (n : Nat) :
    (sliceFromRaw buf n).length = n := by
  simp [sliceFromRaw]
  omega

/-- `Audio::plane::<T>` (src/util/frame/audio.rs lines 158-168): panics
(`Except.error`) when the index is not below `planes()`, panics when
`T::is_valid(format, channels)` fails, and otherwise builds a slice of
length `samples()` over the indexed plane pointer. -/
def plane (f : AudioFrame) (index : Nat) (t : Elem) : Except String (List Nat) :=
  if index ≥ planesCount f then Except.error "out of bounds"
  else if ! elemIsValid t f.format f.channels then Except.error "unsupported type"
  else Except.ok (sliceFromRaw (f.data.getD index []) f.samples)

/-- `Audio::plane_mut::<T>` (src/util/frame/audio.rs lines 174-186):
the same checks and slice construction over the mutable pointer. -/
def planeMut (f : AudioFrame) (index : Nat) (t : Elem) : Except String (List Nat) :=
  if index ≥ planesCount f then Except.error "out of bounds"
  else if ! elemIsValid t f.format f.channels then Except.error "unsupported type"
  else Except.ok (sliceFromRaw (f.data.getD index []) f.samples)

/-- Claim C6: `plane::<T>(index)` and `plane_mut::<T>(index)` panic —
never return a slice — whenever the index is not below the frame's plane
count, and whenever `T`'s binary shape fails the `is_valid` check
against the declared format and channel count. -/
theorem C6_plane_contract_violations_panic
    (f : AudioFrame) (index : Nat) (t : Elem)
    (h : planesCount f ≤ index ∨ elemIsValid t f.format f.channels = false) :
    (∃ msg, plane f index t = Except.error msg)
    ∧ ∃ msg, planeMut f index t = Except.error msg := by
  cases h with
  | inl hb =>
    refine ⟨⟨"out of bounds", ?_⟩, ⟨"out of bounds", ?_⟩⟩ <;>
      simp [plane, planeMut, hb]
  | inr ht =>
    by_cases hb : index ≥ planesCount f
    · refine ⟨⟨"out of bounds", ?_⟩, ⟨"out of bounds", ?_⟩⟩ <;>
        simp [plane, planeMut, hb]
    · refine ⟨⟨"unsupported type", ?_⟩, ⟨"unsupported type", ?_⟩⟩ <;>
        simp [plane, planeMut, hb, ht]

/-- The scenario frame of the spec: declared format 16-bit integer
(packed), stereo, allocated. -/
def i16StereoFrame : AudioFrame :=
  { format := Sample.I16 SampleKind.Packed
    channels := 2
    samples := 4
    channelLayout := 3
    linesize0 := 16
    data := [[1, 2, 3, 4, 5, 6, 7, 8]]
    metadata := [] }

theorem C6_plane_contract_violations_panic_witness :
    (elemIsValid (Elem.scalar ElemBase.f32) i16StereoFrame.format
        i16StereoFrame.channels = false)
    ∧ ((∃ msg, plane i16StereoFrame 0 (Elem.scalar ElemBase.f32)
          = Except.error msg)
       ∧ ∃ msg, planeMut i16StereoFrame 0 (Elem.scalar ElemBase.f32)
          = Except.error msg) :=
  ⟨by decide,
   C6_plane_contract_violations_panic i16StereoFrame 0
     (Elem.scalar ElemBase.f32) (Or.inr (by decide))⟩

/-- Claim C7, counterexample: an audio frame whose declared format is
packed but whose first linesize is 0 (no buffer allocated — exactly what
`Audio::empty()` produces) has a plane count of 0, not the 1 the claim
requires for every packed-format frame. -/
theorem C7_counterexample :
    sampleIsPacked (AudioFrame.mk (Sample.U8 SampleKind.Packed) 2 0 3 0 [] []).format
        = true
    ∧ planesCount (AudioFrame.mk (Sample.U8 SampleKind.Packed) 2 0 3 0 [] []) ≠ 1 := by
  constructor
  · rfl
  · decide

/-- Claim C7 as amended: for every audio frame whose first linesize is
nonzero (i.e. with an allocated buffer), the plane count used by the
bounds check is derived from the packed-vs-planar property and the
channel count — exactly 1 plane for a packed format, exactly one plane
per channel for a planar one; a frame with zero first linesize reports
0 planes. -/
theorem C7_planes_from_format (f : AudioFrame) (h : f.linesize0 ≠ 0) :
    (sampleIsPacked f.format = true → planesCount f = 1)
    ∧ (sampleIsPlanar f.format = true → planesCount f = f.channels) := by
  constructor
  · intro hp
    simp [planesCount, h, hp]
  · intro hp
    have hnp : sampleIsPacked f.format = false := by
      simp [sampleIsPacked, hp]
    simp [planesCount, h, hnp]

theorem C7_planes_from_format_witness :
    planesCount i16StereoFrame = 1 :=
  (C7_planes_from_format i16StereoFrame (by decide)).1 rfl

/-- Claim C10: once both checks pass, the returned slice has length
exactly `samples()` — the per-channel sample count — independent of the
element type, the channel count, and packed vs planar. -/
theorem C10_plane_slice_length (f : AudioFrame) (index : Nat) (t : Elem)
    (hb : index < planesCount f)
    (ht : elemIsValid t f.format f.channels = true) :
    (∃ buf, plane f index t = Except.ok buf ∧ buf.length = f.samples)
    ∧ ∃ buf, planeMut f index t = Except.ok buf ∧ buf.length = f.samples := by
  have hnb : ¬ index ≥ planesCount f := by omega
  refine ⟨⟨sliceFromRaw (f.data.getD index []) f.samples, ?_, sliceFromRaw_length _ _⟩,
          ⟨sliceFromRaw (f.data.getD index []) f.samples, ?_, sliceFromRaw_length _ _⟩⟩ <;>
    simp [plane, planeMut, hnb, ht]

theorem C10_plane_slice_length_witness :
    ∃ buf, plane i16StereoFrame 0 (Elem.scalar ElemBase.i16) = Except.ok buf
      ∧ buf.length = i16StereoFrame.samples :=
  (C10_plane_slice_length i16StereoFrame 0 (Elem.scalar ElemBase.i16)
    (by decide) (by decide)).1

/-- Number of set bits in a channel-layout bit mask (fuel-based so the
kernel can evaluate it on concrete input). -/
def bitCountAux : Nat → Nat → Nat
  | 0, _ => 0
  | fuel + 1, n => if n = 0 then 0 else n % 2 + bitCountAux fuel (n / 2)

/-- Modelled from the spec: the channel count the native layer derives
from a channel-layout mask — one channel per set bit. -/
def layoutChannels (layout : Nat) : Nat := bitCountAux layout layout

/-- `Audio::new(format, samples, layout)` via `Audio::alloc`
(src/util/frame/audio.rs lines 21-27 and 39-46): sets the format, sample
count and channel-layout fields, then has the native
`av_frame_get_buffer` allocate a matching zeroed buffer. Modelled from
the spec for the native side: the native call derives the channel count
from the layout, allocates one plane per channel for planar formats and
a single interleaved plane for packed ones, and sets the first linesize
to the plane byte size. -/
def audioNew (fmt : Sample) (samples : Nat) (layout : Nat) : AudioFrame :=
  let ch := layoutChannels layout
  let nplanes := if sampleIsPlanar fmt then ch else 1
  let perPlane := samples * (if sampleIsPlanar fmt then 1 else ch)
  { format := fmt
    channels := ch
    samples := samples
    channelLayout := layout
    linesize0 := Int.ofNat (perPlane * elemBytes fmt)
    data := List.replicate nplanes (List.replicate perPlane 0)
    metadata := [] }
where
  /-- Byte width of one sample of the given format. -/
  elemBytes : Sample → Nat
    | Sample.None => 0
    | Sample.U8 _ => 1
    | Sample.I16 _ => 2
    | Sample.I32 _ => 4
    | Sample.I64 _ => 8
    | Sample.F32 _ => 4
    | Sample.F64 _ => 8

/-- Modelled from the spec: the native `av_frame_copy` deep copy of
plane data — it copies the source's audio data into the destination
when format, sample count and channel count agree (the wrapper in
`clone_from`, src/util/frame/audio.rs lines 254-259, ignores its return
value). -/
def frameCopy (dst src : AudioFrame) : AudioFrame :=
  if dst.format = src.format ∧ dst.samples = src.samples ∧ dst.channels = src.channels
  then { dst with data := src.data }
  else dst

/-- Modelled from the spec: the native `av_frame_copy_props` metadata
deep copy — copies everything except the buffer-describing fields. -/
def frameCopyProps (dst src : AudioFrame) : AudioFrame :=
  { dst with metadata := src.metadata }

/-- `impl Clone for Audio` (src/util/frame/audio.rs lines 246-259):
`clone` allocates a fresh frame from the source's format, sample count
and channel layout, then `clone_from` deep-copies plane data and
metadata natively. -/
def audioClone (src : AudioFrame) : AudioFrame :=
  frameCopyProps (frameCopy (audioNew src.format src.samples src.channelLayout) src) src

/-- Claim C8: for every allocated audio frame (one whose channel count
agrees with its channel layout, as `Audio::new`/`alloc` guarantee),
`clone()` yields a frame with identical format, channel layout, sample
count, and byte-for-byte identical plane contents and metadata. -/
theorem C8_clone_deep_copy (src : AudioFrame)
    (h : src.channels = layoutChannels src.channelLayout) :
    (audioClone src).format = src.format
    ∧ (audioClone src).channelLayout = src.channelLayout
    ∧ (audioClone src).samples = src.samples
    ∧ (audioClone src).data = src.data
    ∧ (audioClone src).metadata = src.metadata := by
  have hcopy :
      frameCopy (audioNew src.format src.samples src.channelLayout) src
        = { audioNew src.format src.samples src.channelLayout with data := src.data } := by
    rw [frameCopy, if_pos]
    exact ⟨rfl, rfl, h.symm⟩
  unfold audioClone
  rw [hcopy]
  exact ⟨rfl, rfl, rfl, rfl, rfl⟩

theorem C8_clone_deep_copy_witness :
    (audioClone i16StereoFrame).format = i16StereoFrame.format
    ∧ (audioClone i16StereoFrame).channelLayout = i16StereoFrame.channelLayout
    ∧ (audioClone i16StereoFrame).samples = i16StereoFrame.samples
    ∧ (audioClone i16StereoFrame).data = i16StereoFrame.data
    ∧ (audioClone i16StereoFrame).metadata = i16StereoFrame.metadata :=
  C8_clone_deep_copy i16StereoFrame (by decide)

/-- A codec context (`codec::Context`, src/codec/context.rs): the native
block it points at (its identity and its contents) and the optional
shared-owner token (`Option<Rc<dyn Drop>>`, tokens modelled as
numbers). -/
structure CodecContext where
  ptr : Nat
  contents : Nat
  owner : Option Nat
deriving DecidableEq, Repr

/-- `Context::new` (src/codec/context.rs lines 36-43): allocates a fresh
empty native block (`avcodec_alloc_context3`, identity supplied by the
oracle `fresh`) and carries no owner token. -/
def contextNew (fresh : Nat) : CodecContext :=
  { ptr := fresh, contents := 0, owner := none }

/-- `impl Default for Context` (src/codec/context.rs lines 127-131):
delegates to `Context::new`. -/
def contextDefault (fresh : Nat) : CodecContext := contextNew fresh

/-- `Context::wrap(ptr, owner)` (src/codec/context.rs lines 21-23):
references an existing native block, keeping whatever owner token is
supplied. -/
def contextWrap (ptr contents : Nat) (owner : Option Nat) : CodecContext :=
  { ptr := ptr, contents := contents, owner := owner }

/-- `Clone::clone_from` (src/codec/context.rs lines 151-155): the native
`avcodec_copy_context` copies the block contents; pointer and owner are
untouched. -/
def contextCloneFrom (dst src : CodecContext) : CodecContext :=
  { dst with contents := src.contents }

/-- `Clone::clone` (src/codec/context.rs lines 144-149): a fresh
`Context::new` followed by `clone_from` the source. -/
def contextClone (src : CodecContext) (fresh : Nat) : CodecContext :=
  contextCloneFrom (contextNew fresh) src

/-- `impl Drop for Context` (src/codec/context.rs lines 133-141): the
destructor frees the native block exactly when no owner token is
held. -/
def dropFrees (c : CodecContext) : Bool := c.owner.isNone

/-- Claim C9: contexts from `new`, `default` and `clone` carry no
shared-owner token and are therefore owning — their destructor frees the
native block; cloning a `wrap`-constructed shared context yields an
independently owned context (fresh block, no token, freeing destructor);
and the destructor skips freeing exactly for contexts holding a token,
which only `wrap` can produce. -/
theorem C9_context_ownership (fresh p cont tok : Nat) (c : CodecContext) :
    (contextNew fresh).owner = none
    ∧ contextDefault fresh = contextNew fresh
    ∧ (contextClone c fresh).owner = none
    ∧ dropFrees (contextNew fresh) = true
    ∧ dropFrees (contextClone c fresh) = true
    ∧ (dropFrees c = true ↔ c.owner = none)
    ∧ (contextWrap p cont (some tok)).owner = some tok
    ∧ dropFrees (contextWrap p cont (some tok)) = false
    ∧ (contextClone (contextWrap p cont (some tok)) fresh).owner = none
    ∧ (contextClone (contextWrap p cont (some tok)) fresh).ptr = fresh
    ∧ dropFrees (contextClone (contextWrap p cont (some tok)) fresh) = true := by
  obtain ⟨cp, cc, co⟩ := c
  cases co <;>
    simp [contextNew, contextDefault, contextClone, contextCloneFrom,
      contextWrap, dropFrees]

end FF
